import Mathlib

/-!
Verification of the OptiNetSim backend simulation core.

The definitions below are shallow embeddings of the Python sources:
  - src/app/models/network.py        (element data model, ElementUpdate)
  - src/app/models/simulation.py     (pydantic step / response models)
  - src/app/services/gnpy_adapter.py (convert_to_gnpy_json)
  - src/app/services/simulation_service.py (simulate_single_link_gnpy)
  - src/app/crud/crud_network.py     (update_element_in_network)

Python floats are embedded as rationals; the external libm log10 and the
external gnpy engine (equipment loading, network building, per-element
propagate) are not part of the repository sources and are supplied as
explicit parameters, modelled from the spec.
-/

namespace OptiNetSim

/-! ## Element data model (src/app/models/network.py)

The pydantic discriminated union `AnyElementInDB` has one class per element
kind, each with a kind-specific `params` record. -/

/-- The `type` discriminator tag of an element (`Literal[...]` in ElementBase). -/
inductive ElementKind where
  | Transceiver
  | Edfa
  | Roadm
  | Fiber
  | Fused
  | RamanFiber
  deriving DecidableEq, Repr

/-- `FiberParams` from src/app/models/network.py. -/
structure FiberParams where
  length : ℚ
  loss_coef : ℚ
  length_units : String
  att_in : ℚ
  deriving DecidableEq, Repr

/-- `RamanFiberParams` from src/app/models/network.py (extends FiberParams). -/
structure RamanFiberParams extends FiberParams where
  raman_efficiency : ℚ
  noise_figure : Option ℚ
  deriving DecidableEq, Repr

/-- `EdfaParams` from src/app/models/network.py. -/
structure EdfaParams where
  gain_target : Option ℚ
  tilt_target : Option ℚ
  deriving DecidableEq, Repr

/-- `RoadmParams` from src/app/models/network.py (restriction map omitted:
no code under verification reads it). -/
structure RoadmParams where
  target_pch_out_db : Option ℚ
  deriving DecidableEq, Repr

/-- A stored element (`AnyElementInDB`): the discriminated union of the six
pydantic classes, each carrying its `element_id` and kind-specific params. -/
inductive Element where
  | transceiver (element_id : String) (name : String)
  | edfa (element_id : String) (name : String) (params : EdfaParams)
  | roadm (element_id : String) (name : String) (params : RoadmParams)
  | fiber (element_id : String) (name : String) (params : FiberParams)
  | fused (element_id : String) (name : String)
  | ramanFiber (element_id : String) (name : String) (params : RamanFiberParams)
  deriving DecidableEq, Repr

/-- The `element_id` field, common to every variant. -/
def Element.element_id : Element → String
  | .transceiver i _ => i
  | .edfa i _ _ => i
  | .roadm i _ _ => i
  | .fiber i _ _ => i
  | .fused i _ => i
  | .ramanFiber i _ _ => i

/-- The `type` discriminator of an element. -/
def Element.type : Element → ElementKind
  | .transceiver _ _ => .Transceiver
  | .edfa _ _ _ => .Edfa
  | .roadm _ _ _ => .Roadm
  | .fiber _ _ _ => .Fiber
  | .fused _ _ => .Fused
  | .ramanFiber _ _ _ => .RamanFiber

/-- The Python class name of the gnpy node built for an element
(`type(element).__name__` in the service). -/
def ElementKind.pyName : ElementKind → String
  | .Transceiver => "Transceiver"
  | .Edfa => "Edfa"
  | .Roadm => "Roadm"
  | .Fiber => "Fiber"
  | .Fused => "Fused"
  | .RamanFiber => "RamanFiber"

/-! ## Topology-to-path adapter (src/app/services/gnpy_adapter.py) -/

/-- A leaf JSON value emitted by the adapter: the distinction between a
JSON number and a JSON string is exactly what matters for the adapter
output. -/
inductive GnpyJVal where
  | num (q : ℚ)
  | str (s : String)
  deriving DecidableEq, Repr

/-- The `metadata.location` block the adapter writes for every element. -/
structure GnpyMetadataJson where
  city : String
  region : String
  latitude : ℚ
  longitude : ℚ
  deriving DecidableEq, Repr

/-- The `params` object the adapter emits for a `Fiber` element.  Each field
holds the JSON value actually written by the source (number or string). -/
structure GnpyFiberParamsJson where
  length : GnpyJVal
  length_units : GnpyJVal
  att_in : GnpyJVal
  con_in : GnpyJVal
  con_out : GnpyJVal
  type_variety : GnpyJVal
  loss_coef : GnpyJVal
  dispersion : GnpyJVal
  gamma : GnpyJVal
  deriving DecidableEq, Repr

/-- The kind-specific payload of one adapter output element.  `bare` is the
fall-through case: for `Fused` and `RamanFiber` elements no branch of the
adapter runs, so the emitted object has no `type` key and no params. -/
inductive GnpyElementBody where
  | transceiver
  | fiber (params : GnpyFiberParamsJson)
  | edfa (type_variety : String) (gain_target : Option ℚ) (att_in : ℚ) (tilt_target : ℚ)
  | roadm (att_in : ℚ) (add_drop_osnr : ℚ) (pmd : ℚ) (cd : ℚ)
  | bare
  deriving DecidableEq, Repr

/-- One element of the adapter output. -/
structure GnpyElementJson where
  uid : String
  metadata : GnpyMetadataJson
  body : GnpyElementBody
  deriving DecidableEq, Repr

/-- One connection of the adapter output. -/
structure GnpyConnectionJson where
  from_node : String
  to_node : String
  from_node_port : ℚ
  to_node_port : ℚ
  deriving DecidableEq, Repr

/-- The full adapter output. -/
structure GnpyJson where
  elements : List GnpyElementJson
  connections : List GnpyConnectionJson
  deriving DecidableEq, Repr

/-- The constant metadata block written by the adapter. -/
def defaultGnpyMetadata : GnpyMetadataJson :=
  { city := "DefaultCity", region := "DefaultRegion", latitude := 0, longitude := 0 }

/-- The fiber `params` object written by the adapter.  The source assigns the
string literals "element.params.loss_coef", "element.params.dispersion" and
"element.params.gamma" (quoted attribute paths, not attribute reads), so
those three fields are JSON strings. -/
def fiberParamsJson (params : FiberParams) : GnpyFiberParamsJson :=
  { length := .num params.length
    length_units := .str "km"
    att_in := .num 0
    con_in := .num (1/2)
    con_out := .num (1/2)
    type_variety := .str "SSMF"
    loss_coef := .str "element.params.loss_coef"
    dispersion := .str "element.params.dispersion"
    gamma := .str "element.params.gamma" }

/-- The per-element mapping of the adapter loop body (the `if element.type ==`
chain).  `Fused` and `RamanFiber` match no branch and keep only uid/metadata. -/
def convertElement (element : Element) : GnpyElementJson :=
  { uid := element.element_id
    metadata := defaultGnpyMetadata
    body :=
      match element with
      | .transceiver _ _ => .transceiver
      | .fiber _ _ params => .fiber (fiberParamsJson params)
      | .edfa _ _ params => .edfa "default" params.gain_target 0 0
      | .roadm _ _ _ => .roadm 0 48 (1/20) 2
      | .fused _ _ => .bare
      | .ramanFiber _ _ _ => .bare }

/-- The `path_elements` list of the adapter: the network elements whose id
occurs in the requested path, in network order (the Python filter
comprehension). -/
def pathElementsOf (elements : List Element) (path : List String) : List Element :=
  elements.filter (fun el => path.contains el.element_id)

/-- The path-resolution part of `convert_to_gnpy_json` (gnpy_adapter.py
lines 13-23): filter the network elements down to those whose id occurs in
`path`, fail with the missing ids when the count differs from `len(path)`,
otherwise stably sort the filtered elements by their first index in `path`
(Python `sorted` with key `path.index`). -/
def convertResolve (elements : List Element) (path : List String) :
    Except (List String) (List Element) :=
  let path_elements := pathElementsOf elements path
  if path_elements.length ≠ path.length then
    let found_ids := path_elements.map Element.element_id
    .error (path.filter (fun pid => !found_ids.contains pid))
  else
    .ok (List.insertionSort
      (fun a b => path.indexOf a.element_id ≤ path.indexOf b.element_id) path_elements)

/-- The connection list of the adapter output: one edge per consecutive pair
of the requested path. -/
def pathConnections : List String → List GnpyConnectionJson
  | [] => []
  | [_] => []
  | a :: b :: rest => ⟨a, b, 1, 1⟩ :: pathConnections (b :: rest)

/-- `convert_to_gnpy_json` from src/app/services/gnpy_adapter.py: resolve the
path, then emit the gnpy JSON elements in resolved order plus the
consecutive-pair connections.  The error case is the HTTPException (status
404) whose detail lists the missing ids. -/
def convert_to_gnpy_json (elements : List Element) (path : List String) :
    Except (List String) GnpyJson :=
  (convertResolve elements path).map fun ordered =>
    { elements := ordered.map convertElement, connections := pathConnections path }

/-- The caller-order reading of resolution: for each path id in order, the
network element carrying that id.  The ordering contract of the adapter is
that successful resolution returns exactly this list. -/
def resolveTarget (elements : List Element) (path : List String) : List Element :=
  path.filterMap (fun pid => elements.find? (fun el => el.element_id == pid))

/-! ## Response models (src/app/models/simulation.py)

The pydantic models validate their inputs: a field annotated plainly as
`float` (here `input_power_dbm`, `output_power_dbm`, `added_noise_mw`)
rejects `None` with a validation error, while `Optional[float]` fields
accept it.  Construction is therefore embedded as a fallible function. -/

/-- A successfully validated `SimulationStepResult` record. -/
structure SimulationStepResult where
  element_id : String
  element_type : String
  input_power_dbm : ℚ
  input_osnr_db : Option ℚ
  output_power_dbm : ℚ
  output_osnr_db : Option ℚ
  added_noise_mw : ℚ
  latency_ms : ℚ
  deriving DecidableEq, Repr

/-- A pydantic validation failure: the named required-`float` field received
`None` (pydantic: "Input should be a valid number"). -/
inductive StepValidationFailure where
  | invalidNumber (field : String)
  deriving DecidableEq, Repr

/-- Constructing a `SimulationStepResult`: required `float` fields are passed
as `Option ℚ` because the caller may supply `None`; validation rejects
`none` for them and accepts it for the `Optional[float]` fields. -/
def mkSimulationStepResult (element_id element_type : String)
    (input_power_dbm : Option ℚ) (input_osnr_db : Option ℚ)
    (output_power_dbm : Option ℚ) (output_osnr_db : Option ℚ)
    (added_noise_mw : Option ℚ) (latency_ms : ℚ) :
    Except StepValidationFailure SimulationStepResult :=
  match input_power_dbm with
  | none => .error (.invalidNumber "input_power_dbm")
  | some ip =>
    match output_power_dbm with
    | none => .error (.invalidNumber "output_power_dbm")
    | some op =>
      match added_noise_mw with
      | none => .error (.invalidNumber "added_noise_mw")
      | some an =>
        .ok { element_id := element_id, element_type := element_type
              input_power_dbm := ip, input_osnr_db := input_osnr_db
              output_power_dbm := op, output_osnr_db := output_osnr_db
              added_noise_mw := an, latency_ms := latency_ms }

/-- `SingleLinkSimulationResponse` from src/app/models/simulation.py. -/
structure SingleLinkSimulationResponse where
  path_results : List SimulationStepResult
  final_osnr_db : Option ℚ
  final_power_dbm : ℚ
  deriving DecidableEq, Repr

/-! ## External engine model

Modelled from the spec: the gnpy library (equipment/SI config loading,
`network_from_json`, `build_network`, `create_input_spectral_information`,
each element object and its `propagate` method) and the libm `log10` are not
part of the repository sources under src/; the spec treats them as the
engine that mutates a per-channel spectral state element by element.  They
are supplied to the service embedding as explicit parameters. -/

/-- The per-channel arrays of the propagating signal (linear watts). -/
structure SpectralState where
  signal : List ℚ
  ase : List ℚ
  nli : List ℚ
  deriving DecidableEq, Repr

/-- Modelled from the spec: the external collaborators of the service —
the launch-state constructor built from the SI configuration file, the
per-element gnpy transfer function, the libm base-10 logarithm, and the
configured transmit OSNR read from the SI configuration file. -/
structure EngineModel where
  createSpectralInfo : ℚ → SpectralState
  propagate : Element → SpectralState → SpectralState
  log10 : ℚ → ℚ
  tx_osnr : ℚ

/-- A Python float that is either finite or the `float('inf')` sentinel,
as distinguished by the service reporting code. -/
inductive PyFloat where
  | fin (x : ℚ)
  | inf
  deriving DecidableEq, Repr

/-- gnpy `lin2db`: `10 * log10 x`, always finite in this real-arithmetic
embedding (the libm log10 is the `log10` parameter). -/
def lin2db (log10 : ℚ → ℚ) (x : ℚ) : PyFloat :=
  .fin (10 * log10 x)

/-- Python `round(x, 2)`. -/
def round2 (x : ℚ) : ℚ :=
  (round (100 * x) : ℤ) / 100

/-- The raw OSNR value computed by the service (simulation_service.py lines
118 and 127): `lin2db(signal / noise)` when the total noise is positive,
else `float('inf')`. -/
def osnrRaw (log10 : ℚ → ℚ) (signal noise : ℚ) : PyFloat :=
  if 0 < noise then lin2db log10 (signal / noise) else .inf

/-- The OSNR value surfaced in a step record (simulation_service.py lines
137 and 139): `round(osnr, 2)` when the raw value is not `inf`, else `None`. -/
def osnrReport (log10 : ℚ → ℚ) (signal noise : ℚ) : Option ℚ :=
  match osnrRaw log10 signal noise with
  | .inf => none
  | .fin x => some (round2 x)

/-- Output/input power in dBm: `10 * log10(watts * 1000)`. -/
def dbmOf (log10 : ℚ → ℚ) (watts : ℚ) : ℚ :=
  10 * log10 (watts * 1000)

/-! ## Simulation service (src/app/services/simulation_service.py) -/

/-- `str(e)` of the exceptions that can be raised inside the service `try`
block, kept structured (the exact pydantic text is library-generated). -/
inductive SimMessage where
  /-- "Element with UID ... from path not found in the network." -/
  | elementNotFound (uid : String)
  /-- "Simulation path is empty." -/
  | emptyPath
  /-- "Path must start with a Transceiver, but started with ...". -/
  | invalidPathStart (typeName : String)
  /-- pydantic ValidationError raised while building a step record. -/
  | validationError (failure : StepValidationFailure)
  /-- "Simulation failed to produce results." -/
  | noResults
  /-- "GNPy simulation engine error: " followed by `str(e)` — produced by
  the catch-all `except Exception` handler. -/
  | engineError (inner : SimMessage)
  deriving DecidableEq, Repr

/-- A failure surfaced by `simulate_single_link_gnpy`: either the
HTTPException raised by the adapter before the `try` block (status 404,
detail listing the missing ids), or a `SimulationError` with its
`status_code`. -/
inductive ServiceFailure where
  | http (status_code : ℕ) (missing_ids : List String)
  | sim (status_code : ℕ) (message : SimMessage)
  deriving DecidableEq, Repr

/-- The `node_map` lookup loop (service lines 73-79): resolve each requested
uid against the built gnpy network nodes, failing at the first missing uid. -/
def lookupPath (nodes : List Element) : List String → Except String (List Element)
  | [] => .ok []
  | uid :: rest =>
    match nodes.find? (fun n => n.element_id == uid) with
    | none => .error uid
    | some el =>
      match lookupPath nodes rest with
      | .error e => .error e
      | .ok els => .ok (el :: els)

/-- The per-element propagation loop (service lines 109-142): stop at the
first Transceiver, otherwise snapshot channel-0 input metrics, apply the
element transfer function, snapshot output metrics and build a step record. -/
def runSteps (M : EngineModel) :
    List Element → SpectralState →
    Except StepValidationFailure (List SimulationStepResult × SpectralState)
  | [], s => .ok ([], s)
  | element :: rest, s =>
    if element.type = ElementKind.Transceiver then
      .ok ([], s)
    else
      let input_power_watts := s.signal.getD 0 0
      let input_total_noise := s.ase.getD 0 0 + s.nli.getD 0 0
      let input_power_dbm := dbmOf M.log10 input_power_watts
      let input_osnr_db := osnrReport M.log10 input_power_watts input_total_noise
      let s2 := M.propagate element s
      let output_power_watts := s2.signal.getD 0 0
      let output_total_noise := s2.ase.getD 0 0 + s2.nli.getD 0 0
      let output_power_dbm := dbmOf M.log10 output_power_watts
      let output_osnr_db := osnrReport M.log10 output_power_watts output_total_noise
      let added_noise_mw := (output_total_noise - input_total_noise) * 1000
      match mkSimulationStepResult element.element_id element.type.pyName
          (some (round2 input_power_dbm)) input_osnr_db
          (some (round2 output_power_dbm)) output_osnr_db
          (some added_noise_mw) 0 with
      | .error e => .error e
      | .ok step =>
        match runSteps M rest s2 with
        | .error e => .error e
        | .ok (steps, sEnd) => .ok (step :: steps, sEnd)

/-- The body of the service `try` block, after the adapter already produced
the ordered gnpy elements: build the launch spectral state, re-resolve the
requested uids against the network nodes, check non-emptiness and the
leading Transceiver, record the zero-effect transmitter step (note: its
`input_power_dbm` argument is `None`), run the propagation loop, and
assemble the response from the last recorded step.  Errors carry the
`status_code` attached at the raise site. -/
def simulateCore (M : EngineModel) (ordered : List Element) (path : List String)
    (input_power_dbm : ℚ) :
    Except (SimMessage × ℕ) SingleLinkSimulationResponse :=
  let spectral_info := M.createSpectralInfo input_power_dbm
  match lookupPath ordered path with
  | .error uid => .error (.elementNotFound uid, 404)
  | .ok [] => .error (.emptyPath, 400)
  | .ok (transmitter :: restElements) =>
    if transmitter.type ≠ ElementKind.Transceiver then
      .error (.invalidPathStart transmitter.type.pyName, 400)
    else
      match mkSimulationStepResult transmitter.element_id transmitter.type.pyName
          none none (some input_power_dbm) (some M.tx_osnr) (some 0) 0 with
      | .error e => .error (.validationError e, 500)
      | .ok txStep =>
        match runSteps M restElements spectral_info with
        | .error e => .error (.validationError e, 500)
        | .ok (steps, _) =>
          let path_results := txStep :: steps
          if path_results.isEmpty then
            .error (.noResults, 500)
          else
            let lastStep := path_results.getLast (List.cons_ne_nil _ _)
            .ok { path_results := path_results
                  final_osnr_db := lastStep.output_osnr_db
                  final_power_dbm := lastStep.output_power_dbm }

/-- `simulate_single_link_gnpy` from src/app/services/simulation_service.py:
the adapter runs before the `try` block, so its HTTPException (404, missing
ids) propagates unchanged; everything raised inside the `try` block —
including the `SimulationError`s raised with status 400/404 at their
detection sites — is caught by the `except Exception` handler and re-raised
as a status-500 `SimulationError` whose message wraps `str(e)`. -/
def simulate_single_link_gnpy (M : EngineModel) (elements : List Element)
    (path : List String) (input_power_dbm : ℚ) :
    Except ServiceFailure SingleLinkSimulationResponse :=
  match convertResolve elements path with
  | .error missing_ids => .error (.http 404 missing_ids)
  | .ok ordered =>
    match simulateCore M ordered path input_power_dbm with
    | .error e => .error (.sim 500 (.engineError e.1))
    | .ok response => .ok response

/-! ## Element update (src/app/models/network.py `ElementUpdate`,
src/app/crud/crud_network.py `update_element_in_network`)

The stored network keeps elements as embedded BSON documents; the update
builds `{"elements.$.<key>": value}` set-operations from the PATCH payload,
which MongoDB applies to the first array entry matching the element id. -/

/-- A BSON value stored in an element document. -/
inductive MongoVal where
  | str (s : String)
  | num (q : ℚ)
  | dict (fields : List (String × MongoVal))

/-- An element as stored: a document of named fields (`element_id`, `name`,
`type`, `type_variety`, `params`, `operational`, `metadata`). -/
def ElementDoc : Type := List (String × MongoVal)

/-- `ElementUpdate` from src/app/models/network.py: the PATCH payload.  Its
field set deliberately omits `type` (the source comments the field out:
"Type cannot be updated via PATCH").  `none` models an unset field
(pydantic `exclude_unset`). -/
structure ElementUpdate where
  name : Option String
  type_variety : Option String
  params : Option (List (String × MongoVal))
  operational : Option (List (String × MongoVal))
  metadata : Option (List (String × MongoVal))

/-- One key of `payload.model_dump(exclude_unset=True)`: present only when
the payload field was set. -/
def optField (key : String) : Option MongoVal → List (String × MongoVal)
  | none => []
  | some v => [(key, v)]

/-- `payload.model_dump(exclude_unset=True)` as an ordered key/value list. -/
def ElementUpdate.update_data (u : ElementUpdate) : List (String × MongoVal) :=
  optField "name" (u.name.map .str) ++
    optField "type_variety" (u.type_variety.map .str) ++
    optField "params" (u.params.map .dict) ++
    optField "operational" (u.operational.map .dict) ++
    optField "metadata" (u.metadata.map .dict)

/-- MongoDB `$set` of a single key on a document: replace the value of the
first occurrence of the key, or append the key if absent. -/
def setKey (key : String) (v : MongoVal) : ElementDoc → ElementDoc
  | [] => [(key, v)]
  | (k2, v2) :: rest =>
    if k2 = key then (key, v) :: rest else (k2, v2) :: setKey key v rest

/-- Apply every `elements.$.<key>` set-operation of the update to one
element document. -/
def applySetFields (fields : List (String × MongoVal)) (doc : ElementDoc) : ElementDoc :=
  fields.foldl (fun d kv => setKey kv.1 kv.2 d) doc

/-- Whether a stored element document carries the given `element_id`. -/
def docHasId (element_id : String) (doc : ElementDoc) : Bool :=
  match List.lookup "element_id" doc with
  | some (.str s) => s == element_id
  | _ => false

/-- The MongoDB positional update `elements.$`: apply `f` to the first
element document matching the id filter, leaving the rest unchanged. -/
def updateFirst (element_id : String) (f : ElementDoc → ElementDoc) :
    List ElementDoc → List ElementDoc
  | [] => []
  | d :: ds =>
    if docHasId element_id d then f d :: ds
    else d :: updateFirst element_id f ds

/-- `update_element_in_network` from src/app/crud/crud_network.py, viewed as
the transformation of the stored element list: return unchanged when the
element is absent (the function returns None without writing) or when the
payload is empty (the function returns the existing element without
writing); otherwise apply the `$set` operations to the first matching
embedded element. -/
def update_element_in_network (elements : List ElementDoc) (element_id : String)
    (payload : ElementUpdate) : List ElementDoc :=
  if ¬ elements.any (docHasId element_id) then
    elements
  else if payload.update_data.isEmpty then
    elements
  else
    updateFirst element_id (applySetFields payload.update_data) elements

/-- Decidable equality of `Except` results, used to evaluate the embedded
functions on concrete inputs. -/
instance {ε α : Type} [DecidableEq ε] [DecidableEq α] : DecidableEq (Except ε α) := fun a b =>
  match a, b with
  | .error e1, .error e2 => decidable_of_iff (e1 = e2) (by simp)
  | .error _, .ok _ => isFalse (by simp)
  | .ok _, .error _ => isFalse (by simp)
  | .ok v1, .ok v2 => decidable_of_iff (v1 = v2) (by simp)

/-! ## Concrete instances used by witnesses and counterexamples -/

/-- A transceiver element named T1. -/
def tx1 : Element := .transceiver "T1" "T1"

/-- A transceiver element named T2. -/
def tx2 : Element := .transceiver "T2" "T2"

/-- The 80 km, 0.2 dB/km fiber of the spec scenario. -/
def fiber80 : Element := .fiber "F1" "F1" ⟨80, 2/10, "km", 0⟩

/-- An amplifier element. -/
def edfa1 : Element := .edfa "E1" "E1" ⟨some 20, none⟩

/-- A ROADM element. -/
def roadm1 : Element := .roadm "R1" "R1" ⟨none⟩

/-- A concrete engine-parameter instance for evaluating the service model on
inputs whose outcome does not depend on the external engine. -/
def trivialEngine : EngineModel :=
  { createSpectralInfo := fun _ => ⟨[], [], []⟩
    propagate := fun _ s => s
    log10 := fun _ => 0
    tx_osnr := 35 }

/-! ## Claim theorems -/

/-- C5: the claim asserts that the zero-effect leading-Transceiver step is
successfully constructed and returned.  In the code the step record is built
with `input_power_dbm=None`, but `SimulationStepResult.input_power_dbm` is a
required (non-Optional) `float`, so pydantic rejects the record; the
catch-all handler wraps the validation error as a status-500 engine error.
Hence every simulation of a valid Transceiver-led path fails instead of
returning the step. -/
theorem c5_leading_transceiver_step_validation_fails
    (M : EngineModel) (elements : List Element) (path : List String) (power : ℚ)
    (ordered : List Element) (t : Element) (rest : List Element)
    (hconv : convertResolve elements path = .ok ordered)
    (hlook : lookupPath ordered path = .ok (t :: rest))
    (ht : t.type = ElementKind.Transceiver) :
    simulate_single_link_gnpy M elements path power =
      .error (.sim 500 (.engineError (.validationError (.invalidNumber "input_power_dbm")))) := by
  simp only [simulate_single_link_gnpy, hconv]
  simp only [simulateCore, hlook]
  simp [ht, mkSimulationStepResult]

/-- Witness for C5 at a concrete valid path. -/
theorem c5_leading_transceiver_step_validation_fails_witness :
    simulate_single_link_gnpy trivialEngine [tx1, edfa1, tx2] ["T1", "E1", "T2"] 0 =
      .error (.sim 500 (.engineError (.validationError (.invalidNumber "input_power_dbm")))) :=
  c5_leading_transceiver_step_validation_fails trivialEngine [tx1, edfa1, tx2]
    ["T1", "E1", "T2"] 0 [tx1, edfa1, tx2] tx1 [edfa1, tx2]
    (by decide) (by decide) (by decide)

/-- C2: the claim asserts that a single-Transceiver path fails with the
EmptyPropagation diagnosis ("Simulation failed to produce results.").  On
the code, such a request fails with the wrapped leading-step validation
error instead; the `if not path_results` guard can never fire because the
leading-Transceiver step is appended before it is evaluated. -/
theorem c2_single_transceiver_path_fails_without_empty_propagation :
    simulate_single_link_gnpy trivialEngine [tx2] ["T2"] 0 =
      .error (.sim 500 (.engineError (.validationError (.invalidNumber "input_power_dbm")))) ∧
    ∀ code : ℕ, simulate_single_link_gnpy trivialEngine [tx2] ["T2"] 0 ≠
      .error (.sim code (.engineError .noResults)) := by
  have h1 : simulate_single_link_gnpy trivialEngine [tx2] ["T2"] 0 =
      .error (.sim 500 (.engineError (.validationError (.invalidNumber "input_power_dbm")))) := by
    decide
  refine ⟨h1, ?_⟩
  intro code h
  rw [h1] at h
  simp at h

/-- C7: the claim asserts that for a path with a terminating Transceiver the
per-element steps between the Transceivers are produced and the response
reports the last recorded step.  On the code no response is ever produced:
the request fails at the leading-step validation before the propagation
loop runs. -/
theorem c7_terminating_transceiver_no_response_produced :
    simulate_single_link_gnpy trivialEngine [tx1, roadm1, tx2, fiber80]
        ["T1", "R1", "T2", "F1"] 0 =
      .error (.sim 500 (.engineError (.validationError (.invalidNumber "input_power_dbm")))) ∧
    ∀ response : SingleLinkSimulationResponse,
      simulate_single_link_gnpy trivialEngine [tx1, roadm1, tx2, fiber80]
          ["T1", "R1", "T2", "F1"] 0 ≠ .ok response := by
  have h1 : simulate_single_link_gnpy trivialEngine [tx1, roadm1, tx2, fiber80]
        ["T1", "R1", "T2", "F1"] 0 =
      .error (.sim 500 (.engineError (.validationError (.invalidNumber "input_power_dbm")))) := by
    decide
  refine ⟨h1, ?_⟩
  intro response h
  rw [h1] at h
  simp at h

/-- C1: the claim asserts the Fiber step of the scenario reports ≈ -16.0 dBm.
On the code the adapter emits the fiber `loss_coef` (and `dispersion`,
`gamma`) as the string literal "element.params.loss_coef" rather than the
stored value 0.2, so the engine receives an unusable parameter; moreover the
service fails at the leading-step validation, so no Fiber step is ever
reported. -/
theorem c1_fiber_scenario_loss_coef_is_string_literal :
    convert_to_gnpy_json [tx1, fiber80, tx2] ["T1", "F1", "T2"] =
      .ok { elements := [⟨"T1", defaultGnpyMetadata, .transceiver⟩,
                         ⟨"F1", defaultGnpyMetadata,
                          .fiber (fiberParamsJson ⟨80, 2/10, "km", 0⟩)⟩,
                         ⟨"T2", defaultGnpyMetadata, .transceiver⟩],
            connections := [⟨"T1", "F1", 1, 1⟩, ⟨"F1", "T2", 1, 1⟩] } ∧
    (fiberParamsJson ⟨80, 2/10, "km", 0⟩).loss_coef = .str "element.params.loss_coef" ∧
    (∀ q : ℚ, (fiberParamsJson ⟨80, 2/10, "km", 0⟩).loss_coef ≠ .num q) ∧
    simulate_single_link_gnpy trivialEngine [tx1, fiber80, tx2] ["T1", "F1", "T2"] 0 =
      .error (.sim 500 (.engineError (.validationError (.invalidNumber "input_power_dbm")))) := by
  refine ⟨rfl, rfl, ?_, by decide⟩
  intro q h
  simp [fiberParamsJson] at h

/-- C6: the OSNR surfaced in a step record is `None` exactly when the total
noise is zero, and otherwise is `round(10·log10(signal/noise), 2)`; the
`float('inf')` sentinel produced for zero noise is always intercepted by
the reporting check and never surfaced.  The libm base-10 logarithm is the
abstract parameter `log10`. -/
theorem c6_osnr_reported_null_iff_zero_noise
    (log10 : ℚ → ℚ) (signal noise : ℚ) (hnoise : 0 ≤ noise) :
    (osnrReport log10 signal noise = none ↔ noise = 0) ∧
    (∀ x : ℚ, osnrReport log10 signal noise = some x →
      x = round2 (10 * log10 (signal / noise))) := by
  unfold osnrReport osnrRaw lin2db
  rcases lt_or_eq_of_le hnoise with hpos | hzero
  · constructor
    · simp [hpos, hpos.ne']
    · intro x hx
      simp [hpos] at hx
      exact hx.symm
  · constructor
    · simp [← hzero]
    · intro x hx
      simp [← hzero] at hx

/-- Witness for C6 at concrete inputs (zero noise reported as null). -/
theorem c6_osnr_reported_null_iff_zero_noise_witness :
    (0 : ℚ) ≤ 0 ∧ osnrReport (fun _ => 0) 1 0 = none :=
  ⟨le_refl 0, ((c6_osnr_reported_null_iff_zero_noise (fun _ => 0) 1 0 (le_refl 0)).1).mpr rfl⟩

/-- C3 (counterexample): a path starting with a Fiber does fail, but the
failure surfaced to the caller has status 500 and the wrapped engine-error
message — not the unmodified status-400 InvalidPathStart failure the claim
asserts. -/
theorem c3_invalid_path_start_is_reclassified_counterexample :
    simulate_single_link_gnpy trivialEngine [fiber80, tx1] ["F1", "T1"] 0 =
      .error (.sim 500 (.engineError (.invalidPathStart "Fiber"))) ∧
    ∀ msg : SimMessage, simulate_single_link_gnpy trivialEngine [fiber80, tx1] ["F1", "T1"] 0 ≠
      .error (.sim 400 msg) := by
  have h1 : simulate_single_link_gnpy trivialEngine [fiber80, tx1] ["F1", "T1"] 0 =
      .error (.sim 500 (.engineError (.invalidPathStart "Fiber"))) := by
    decide
  refine ⟨h1, ?_⟩
  intro msg h
  rw [h1] at h
  simp at h

/-- C3 (amended): for every path whose first resolved element is not a
Transceiver, the core raises the InvalidPathStart SimulationError with the
bad-request status 400 at the point of detection, but the catch-all
`except Exception` handler re-wraps it, so the caller receives a status-500
"GNPy simulation engine error" carrying the InvalidPathStart text — the
failure does not propagate unmodified. -/
theorem c3_invalid_path_start_raised_400_then_rewrapped_500
    (M : EngineModel) (elements : List Element) (path : List String) (power : ℚ)
    (ordered : List Element) (t : Element) (rest : List Element)
    (hconv : convertResolve elements path = .ok ordered)
    (hlook : lookupPath ordered path = .ok (t :: rest))
    (ht : t.type ≠ ElementKind.Transceiver) :
    simulateCore M ordered path power =
      .error (.invalidPathStart t.type.pyName, 400) ∧
    simulate_single_link_gnpy M elements path power =
      .error (.sim 500 (.engineError (.invalidPathStart t.type.pyName))) := by
  have hcore : simulateCore M ordered path power =
      .error (.invalidPathStart t.type.pyName, 400) := by
    simp only [simulateCore, hlook]
    simp [ht]
  refine ⟨hcore, ?_⟩
  simp only [simulate_single_link_gnpy, hconv, hcore]

/-- Witness for C3 at a concrete ROADM-led path. -/
theorem c3_invalid_path_start_raised_400_then_rewrapped_500_witness :
    simulateCore trivialEngine [roadm1, tx2] ["R1", "T2"] 0 =
      .error (.invalidPathStart "Roadm", 400) ∧
    simulate_single_link_gnpy trivialEngine [roadm1, tx2] ["R1", "T2"] 0 =
      .error (.sim 500 (.engineError (.invalidPathStart "Roadm"))) :=
  c3_invalid_path_start_raised_400_then_rewrapped_500 trivialEngine [roadm1, tx2]
    ["R1", "T2"] 0 [roadm1, tx2] roadm1 [tx2] (by decide) (by decide) (by decide)

/-! ## Helper lemmas for the element-update invariant -/

/-- A `$set` on one key leaves the lookup of any other key unchanged. -/
theorem lookup_setKey_of_ne (k key : String) (v : MongoVal) (hne : k ≠ key) :
    ∀ doc : ElementDoc, List.lookup k (setKey key v doc) = List.lookup k doc := by
  intro doc
  induction doc with
  | nil =>
    simp [setKey, List.lookup, beq_eq_false_iff_ne.mpr hne]
  | cons kv rest ih =>
    by_cases h2 : kv.1 = key
    · have h3 : (k == kv.1) = false := beq_eq_false_iff_ne.mpr (h2 ▸ hne)
      simp [setKey, h2, List.lookup, h3, beq_eq_false_iff_ne.mpr hne]
    · simp [setKey, h2, List.lookup, ih]

/-- Applying a batch of `$set` operations none of which targets `k` leaves
the lookup of `k` unchanged. -/
theorem lookup_applySetFields_of_ne (k : String) :
    ∀ (fields : List (String × MongoVal)) (doc : ElementDoc),
      (∀ kv ∈ fields, kv.1 ≠ k) →
      List.lookup k (applySetFields fields doc) = List.lookup k doc := by
  intro fields
  induction fields with
  | nil => intro doc _; rfl
  | cons kv rest ih =>
    intro doc hk
    have h1 : List.lookup k (applySetFields rest (setKey kv.1 kv.2 doc)) =
        List.lookup k (setKey kv.1 kv.2 doc) :=
      ih _ (fun kv2 h2 => hk kv2 (List.mem_cons_of_mem _ h2))
    have h2 : List.lookup k (setKey kv.1 kv.2 doc) = List.lookup k doc :=
      lookup_setKey_of_ne k kv.1 kv.2 (Ne.symm (hk kv (List.mem_cons_self _ _))) doc
    calc List.lookup k (applySetFields (kv :: rest) doc)
        = List.lookup k (applySetFields rest (setKey kv.1 kv.2 doc)) := rfl
      _ = List.lookup k doc := h1.trans h2

/-- Membership in one optional dump entry fixes the key. -/
theorem mem_optField_key {key : String} {v : Option MongoVal} {kv : String × MongoVal}
    (h : kv ∈ optField key v) : kv.1 = key := by
  cases v with
  | none => simp [optField] at h
  | some x =>
    simp [optField] at h
    rw [h]

/-- The PATCH dump never contains the `type` key: `ElementUpdate` has no
`type` field (the source comments it out as not updatable). -/
theorem update_data_key_ne_type (u : ElementUpdate) :
    ∀ kv ∈ u.update_data, kv.1 ≠ "type" := by
  intro kv h
  unfold ElementUpdate.update_data at h
  rcases List.mem_append.mp h with h1 | h5
  · rcases List.mem_append.mp h1 with h2 | h4
    · rcases List.mem_append.mp h2 with h3 | h3
      · rcases List.mem_append.mp h3 with h6 | h6
        · rw [mem_optField_key h6]; decide
        · rw [mem_optField_key h6]; decide
      · rw [mem_optField_key h3]; decide
    · rw [mem_optField_key h4]; decide
  · rw [mem_optField_key h5]; decide

/-- Mapping a projection that is invariant under `f` across a positional
update leaves the mapped list unchanged. -/
theorem map_updateFirst_of_invariant (g : ElementDoc → Option MongoVal)
    (element_id : String) (f : ElementDoc → ElementDoc)
    (hg : ∀ d, g (f d) = g d) :
    ∀ l : List ElementDoc, (updateFirst element_id f l).map g = l.map g := by
  intro l
  induction l with
  | nil => rfl
  | cons d ds ih =>
    unfold updateFirst
    by_cases h : docHasId element_id d
    · simp [h, hg]
    · simp [h, ih]

/-- C9: for every element update on a stored network, the `type` field of
every stored element document is unchanged — the PATCH payload cannot carry
a kind change, and failed updates (missing element, empty payload) leave
the store untouched. -/
theorem c9_element_kind_immutable_under_update (elements : List ElementDoc)
    (element_id : String) (payload : ElementUpdate) :
    (update_element_in_network elements element_id payload).map (List.lookup "type") =
      elements.map (List.lookup "type") := by
  unfold update_element_in_network
  by_cases h1 : elements.any (docHasId element_id)
  · by_cases h2 : payload.update_data.isEmpty
    · simp [h1, h2]
    · simp only [h1, h2, not_true_eq_false, if_false, Bool.not_eq_true, if_neg,
        not_false_eq_true, if_true]
      have : ∀ d : ElementDoc,
          List.lookup "type" (applySetFields payload.update_data d) =
            List.lookup "type" d := fun d =>
        lookup_applySetFields_of_ne "type" payload.update_data d
          (update_data_key_ne_type payload)
      exact map_updateFirst_of_invariant _ element_id _ this elements
  · simp [h1]

/-! ## Helper lemmas for the path resolver -/

/-- Membership in the filtered `path_elements` list. -/
theorem mem_pathElementsOf {elements : List Element} {path : List String} {el : Element} :
    el ∈ pathElementsOf elements path ↔ el ∈ elements ∧ el.element_id ∈ path := by
  simp [pathElementsOf, List.mem_filter]

/-- The ids of `path_elements` are the network ids filtered down to the path. -/
theorem map_pathElementsOf (elements : List Element) (path : List String) :
    (pathElementsOf elements path).map Element.element_id =
      (elements.map Element.element_id).filter (fun pid => path.contains pid) := by
  unfold pathElementsOf
  rw [List.filter_map]
  rfl

/-- A successful `find?` by id returns a member carrying that id. -/
theorem find?_by_id_eq_some {elements : List Element} {pid : String} {el : Element}
    (h : elements.find? (fun e => e.element_id == pid) = some el) :
    el ∈ elements ∧ el.element_id = pid := by
  refine ⟨List.mem_of_find?_eq_some h, ?_⟩
  have := List.find?_some h
  simpa using this

/-- Membership in the caller-order target list (network ids assumed unique). -/
theorem mem_resolveTarget {elements : List Element} {path : List String} {el : Element}
    (hN : (elements.map Element.element_id).Nodup) :
    el ∈ resolveTarget elements path ↔ el ∈ elements ∧ el.element_id ∈ path := by
  unfold resolveTarget
  rw [List.mem_filterMap]
  constructor
  · rintro ⟨pid, hpid, hfind⟩
    obtain ⟨hmem, hid⟩ := find?_by_id_eq_some hfind
    exact ⟨hmem, hid ▸ hpid⟩
  · rintro ⟨hmem, hpath⟩
    have hsome : (elements.find? (fun e => e.element_id == el.element_id)).isSome :=
      List.find?_isSome.mpr ⟨el, hmem, by simp⟩
    obtain ⟨el2, hfind⟩ := Option.isSome_iff_exists.mp hsome
    obtain ⟨hmem2, hid2⟩ := find?_by_id_eq_some hfind
    have : el2 = el := List.inj_on_of_nodup_map hN hmem2 hmem hid2
    exact ⟨el.element_id, hpath, this ▸ hfind⟩

/-- When every path id is carried by some network element, the target list
projects back onto the path: resolution in caller order hits each id. -/
theorem map_resolveTarget (elements : List Element) :
    ∀ path : List String, (∀ pid ∈ path, ∃ el ∈ elements, el.element_id = pid) →
      (resolveTarget elements path).map Element.element_id = path := by
  intro path
  induction path with
  | nil => intro _; rfl
  | cons pid rest ih =>
    intro hAll
    obtain ⟨el, hmem, hid⟩ := hAll pid (List.mem_cons_self _ _)
    have hsome : (elements.find? (fun e => e.element_id == pid)).isSome :=
      List.find?_isSome.mpr ⟨el, hmem, by simp [hid]⟩
    obtain ⟨el2, hfind⟩ := Option.isSome_iff_exists.mp hsome
    obtain ⟨_, hid2⟩ := find?_by_id_eq_some hfind
    unfold resolveTarget
    simp only [List.filterMap_cons, hfind]
    have ihr := ih (fun q hq => hAll q (List.mem_cons_of_mem _ hq))
    unfold resolveTarget at ihr
    simp [hid2, ihr]

/-- Under unique network ids, distinct path ids and full coverage, the
filtered `path_elements` list is a permutation of the caller-order target. -/
theorem pathElementsOf_perm_resolveTarget
    {elements : List Element} {path : List String}
    (hN : (elements.map Element.element_id).Nodup)
    (hP : path.Nodup)
    (hAll : ∀ pid ∈ path, ∃ el ∈ elements, el.element_id = pid) :
    List.Perm (pathElementsOf elements path) (resolveTarget elements path) := by
  have hpe : (pathElementsOf elements path).Nodup :=
    (List.Nodup.of_map _ hN).filter _
  have htargetMap : (resolveTarget elements path).map Element.element_id = path :=
    map_resolveTarget elements path hAll
  have htarget : (resolveTarget elements path).Nodup :=
    List.Nodup.of_map Element.element_id (by rw [htargetMap]; exact hP)
  exact (List.perm_ext_iff_of_nodup hpe htarget).mpr fun el =>
    mem_pathElementsOf.trans (mem_resolveTarget hN).symm

/-- The target list is strictly increasing in the path-index key. -/
theorem pairwise_indexOf_resolveTarget
    {elements : List Element} {path : List String}
    (hP : path.Nodup)
    (hAll : ∀ pid ∈ path, ∃ el ∈ elements, el.element_id = pid) :
    (resolveTarget elements path).Pairwise
      (fun a b => path.indexOf a.element_id < path.indexOf b.element_id) := by
  have hmap : (resolveTarget elements path).map Element.element_id = path :=
    map_resolveTarget elements path hAll
  have hlen : (resolveTarget elements path).length = path.length := by
    have h2 := congrArg List.length hmap
    simpa using h2
  rw [List.pairwise_iff_getElem]
  intro i j hi hj hij
  have hidx : ∀ (k : ℕ) (hk : k < (resolveTarget elements path).length),
      path.indexOf ((resolveTarget elements path)[k].element_id) = k := by
    intro k hk
    have hk2 : k < path.length := hlen ▸ hk
    have hk3 : k < ((resolveTarget elements path).map Element.element_id).length := by
      rw [List.length_map]; exact hk
    have hmk : ((resolveTarget elements path).map Element.element_id)[k] = path[k] :=
      List.getElem_of_eq hmap hk3
    rw [List.getElem_map] at hmk
    rw [hmk]
    exact List.indexOf_getElem hP k hk2
  rw [hidx i hi, hidx j hj]
  exact hij

/-- A stable sort by a key is uniquely determined when the keys are
pairwise distinct: any permutation of the input that is strictly
increasing in the key is the sorted result. -/
theorem insertionSort_eq_of_pairwise_lt {α : Type} (key : α → ℕ) (l target : List α)
    (hperm : List.Perm l target)
    (hsorted : target.Pairwise (fun a b => key a < key b)) :
    List.insertionSort (fun a b => key a ≤ key b) l = target := by
  haveI hTot : IsTotal α (fun a b => key a ≤ key b) := ⟨fun a b => Nat.le_total _ _⟩
  haveI hTrans : IsTrans α (fun a b => key a ≤ key b) := ⟨fun a b c => Nat.le_trans⟩
  haveI hAnti : IsAntisymm α (fun a b => key a < key b) :=
    ⟨fun a b h1 h2 => absurd (Nat.lt_trans h1 h2) (Nat.lt_irrefl _)⟩
  have hperm2 : List.Perm (List.insertionSort (fun a b => key a ≤ key b) l) target :=
    (List.perm_insertionSort _ l).trans hperm
  have hsorted1 : (List.insertionSort (fun a b => key a ≤ key b) l).Sorted
      (fun a b => key a ≤ key b) :=
    List.sorted_insertionSort _ l
  have hkeysT : (target.map key).Nodup := by
    unfold List.Nodup
    rw [List.pairwise_map]
    exact hsorted.imp Nat.ne_of_lt
  have hkeysS : ((List.insertionSort (fun a b => key a ≤ key b) l).map key).Nodup :=
    ((hperm2.map key).nodup_iff).mpr hkeysT
  have hpairNe : (List.insertionSort (fun a b => key a ≤ key b) l).Pairwise
      (fun a b => key a ≠ key b) := by
    unfold List.Nodup at hkeysS
    rwa [List.pairwise_map] at hkeysS
  have hlt : (List.insertionSort (fun a b => key a ≤ key b) l).Pairwise
      (fun a b => key a < key b) :=
    List.Pairwise.imp₂ (fun a b hle hne => Nat.lt_of_le_of_ne hle hne) hsorted1 hpairNe
  exact List.eq_of_perm_of_sorted hperm2 hlt hsorted


/-- `List.contains` agrees with membership for strings. -/
theorem string_contains_iff {l : List String} {a : String} : l.contains a = true ↔ a ∈ l :=
  List.elem_iff

/-- A list with a duplicate has strictly fewer distinct members than
entries. -/
theorem toFinset_card_lt_of_not_nodup {l : List String} (h : ¬ l.Nodup) :
    l.toFinset.card < l.length := by
  rw [List.card_toFinset]
  have hsub := List.dedup_sublist l
  have hle := hsub.length_le
  rcases Nat.lt_or_ge l.dedup.length l.length with hlt | hge
  · exact hlt
  · exact absurd ((hsub.eq_of_length (Nat.le_antisymm hle hge)) ▸ List.nodup_dedup l) h

/-- C8: when the network ids are unique, the path ids are pairwise distinct
and every path id exists in the network, resolution succeeds and returns
exactly the elements carrying the path ids, in the caller-specified path
order (not network order). -/
theorem c8_resolver_preserves_caller_order (elements : List Element) (path : List String)
    (hN : (elements.map Element.element_id).Nodup)
    (hP : path.Nodup)
    (hAll : ∀ pid ∈ path, ∃ el ∈ elements, el.element_id = pid) :
    convertResolve elements path = .ok (resolveTarget elements path) ∧
    (resolveTarget elements path).map Element.element_id = path := by
  have hperm := pathElementsOf_perm_resolveTarget hN hP hAll
  have hmap := map_resolveTarget elements path hAll
  have hlen : (pathElementsOf elements path).length = path.length := by
    rw [hperm.length_eq]
    have h2 := congrArg List.length hmap
    simpa using h2
  have hsorted := pairwise_indexOf_resolveTarget hP hAll
  have hsort : List.insertionSort
      (fun a b => path.indexOf a.element_id ≤ path.indexOf b.element_id)
      (pathElementsOf elements path) = resolveTarget elements path :=
    insertionSort_eq_of_pairwise_lt (fun el => path.indexOf el.element_id)
      (pathElementsOf elements path) (resolveTarget elements path) hperm hsorted
  refine ⟨?_, hmap⟩
  simp only [convertResolve]
  rw [if_neg (by simp [hlen])]
  rw [hsort]

/-- Witness for C8: a reversed-order path resolves in caller order. -/
theorem c8_resolver_preserves_caller_order_witness :
    convertResolve [tx1, fiber80, tx2] ["T2", "F1", "T1"] =
      .ok (resolveTarget [tx1, fiber80, tx2] ["T2", "F1", "T1"]) ∧
    (resolveTarget [tx1, fiber80, tx2] ["T2", "F1", "T1"]).map Element.element_id =
      ["T2", "F1", "T1"] :=
  c8_resolver_preserves_caller_order [tx1, fiber80, tx2] ["T2", "F1", "T1"]
    (by decide) (by decide) (by decide)

/-- C4: when some path id is missing from the network (network ids unique),
resolution fails and the reported missing-id list contains exactly the path
ids carried by no network element — the full set, not only the first. -/
theorem c4_missing_ids_fully_enumerated (elements : List Element) (path : List String)
    (hN : (elements.map Element.element_id).Nodup)
    (hmiss : ∃ m ∈ path, ∀ el ∈ elements, el.element_id ≠ m) :
    ∃ missing, convertResolve elements path = .error missing ∧
      ∀ pid : String,
        (pid ∈ missing ↔ pid ∈ path ∧ ∀ el ∈ elements, el.element_id ≠ pid) := by
  obtain ⟨m, hm, hmabs⟩ := hmiss
  have hids := map_pathElementsOf elements path
  have hidsNodup : ((pathElementsOf elements path).map Element.element_id).Nodup := by
    rw [hids]; exact hN.filter _
  have hin_ids : ∀ pid : String,
      pid ∈ (pathElementsOf elements path).map Element.element_id ↔
        (pid ∈ elements.map Element.element_id ∧ pid ∈ path) := by
    intro pid
    rw [hids, List.mem_filter]
    constructor
    · rintro ⟨h1, h2⟩
      exact ⟨h1, string_contains_iff.mp (by simpa using h2)⟩
    · rintro ⟨h1, h2⟩
      exact ⟨h1, by simpa using string_contains_iff.mpr h2⟩
  have hmnotin : m ∉ elements.map Element.element_id := by
    intro hcon
    obtain ⟨el, helm, hel⟩ := List.mem_map.mp hcon
    exact hmabs el helm hel
  have hsub : ((pathElementsOf elements path).map Element.element_id).toFinset ⊆
      path.toFinset.erase m := by
    intro x hx
    rw [List.mem_toFinset] at hx
    obtain ⟨hx1, hx2⟩ := (hin_ids x).mp hx
    rw [Finset.mem_erase]
    exact ⟨fun hxm => hmnotin (hxm ▸ hx1), List.mem_toFinset.mpr hx2⟩
  have hlt : (pathElementsOf elements path).length < path.length := by
    calc (pathElementsOf elements path).length
        = ((pathElementsOf elements path).map Element.element_id).length :=
          (List.length_map _ _).symm
      _ = ((pathElementsOf elements path).map Element.element_id).toFinset.card :=
          (List.toFinset_card_of_nodup hidsNodup).symm
      _ ≤ (path.toFinset.erase m).card := Finset.card_le_card hsub
      _ < path.toFinset.card := Finset.card_erase_lt_of_mem (List.mem_toFinset.mpr hm)
      _ ≤ path.length := List.toFinset_card_le path
  refine ⟨path.filter
      (fun pid => !((pathElementsOf elements path).map Element.element_id).contains pid),
    ?_, ?_⟩
  · simp only [convertResolve]
    rw [if_pos (Nat.ne_of_lt hlt)]
  · intro pid
    rw [List.mem_filter]
    constructor
    · rintro ⟨h1, h2⟩
      refine ⟨h1, fun el helm heq => ?_⟩
      have hmem : ((pathElementsOf elements path).map Element.element_id).contains pid
          = true :=
        string_contains_iff.mpr ((hin_ids pid).mpr ⟨List.mem_map.mpr ⟨el, helm, heq⟩, h1⟩)
      simp only [hmem, Bool.not_true] at h2
      exact Bool.false_ne_true h2
    · rintro ⟨h1, h2⟩
      refine ⟨h1, ?_⟩
      have hnot : pid ∉ (pathElementsOf elements path).map Element.element_id := by
        intro hcon
        obtain ⟨hmap2, _⟩ := (hin_ids pid).mp hcon
        obtain ⟨el, helm, hel⟩ := List.mem_map.mp hmap2
        exact h2 el helm hel
      cases hc : ((pathElementsOf elements path).map Element.element_id).contains pid with
      | false => simp only [hc, Bool.not_false]
      | true => exact absurd (string_contains_iff.mp hc) hnot

/-- Witness for C4 at a path with two missing ids. -/
theorem c4_missing_ids_fully_enumerated_witness :
    ∃ missing, convertResolve [tx1, tx2] ["T1", "X", "T2", "Y"] = .error missing ∧
      ∀ pid : String,
        (pid ∈ missing ↔ pid ∈ ["T1", "X", "T2", "Y"] ∧
          ∀ el ∈ [tx1, tx2], el.element_id ≠ pid) :=
  c4_missing_ids_fully_enumerated [tx1, tx2] ["T1", "X", "T2", "Y"]
    (by decide) ⟨"X", by decide, by decide⟩

/-- C10: a path repeating an id (all ids present, network ids unique) makes
the filtered element count fall short of the path length, so resolution
fails through the missing-id branch — and the reported missing-id list is
empty, because no id is actually missing. -/
theorem c10_duplicate_path_ids_fail_with_empty_missing_list
    (elements : List Element) (path : List String)
    (hN : (elements.map Element.element_id).Nodup)
    (hAll : ∀ pid ∈ path, ∃ el ∈ elements, el.element_id = pid)
    (hdup : ¬ path.Nodup) :
    convertResolve elements path = .error [] := by
  have hids := map_pathElementsOf elements path
  have hidsNodup : ((pathElementsOf elements path).map Element.element_id).Nodup := by
    rw [hids]; exact hN.filter _
  have hin_ids : ∀ pid ∈ path,
      pid ∈ (pathElementsOf elements path).map Element.element_id := by
    intro pid hp
    rw [hids, List.mem_filter]
    obtain ⟨el, helm, hel⟩ := hAll pid hp
    exact ⟨List.mem_map.mpr ⟨el, helm, hel⟩, by simpa using string_contains_iff.mpr hp⟩
  have hfinset : ((pathElementsOf elements path).map Element.element_id).toFinset =
      path.toFinset := by
    ext x
    simp only [List.mem_toFinset]
    constructor
    · intro hx
      rw [hids, List.mem_filter] at hx
      exact string_contains_iff.mp (by simpa using hx.2)
    · intro hx
      exact hin_ids x hx
  have hlt : (pathElementsOf elements path).length < path.length := by
    calc (pathElementsOf elements path).length
        = ((pathElementsOf elements path).map Element.element_id).length :=
          (List.length_map _ _).symm
      _ = ((pathElementsOf elements path).map Element.element_id).toFinset.card :=
          (List.toFinset_card_of_nodup hidsNodup).symm
      _ = path.toFinset.card := by rw [hfinset]
      _ < path.length := toFinset_card_lt_of_not_nodup hdup
  simp only [convertResolve]
  rw [if_pos (Nat.ne_of_lt hlt)]
  have hempty : path.filter
      (fun pid => !((pathElementsOf elements path).map Element.element_id).contains pid) =
        [] := by
    rw [List.filter_eq_nil_iff]
    intro pid hp
    have hmem := string_contains_iff.mpr (hin_ids pid hp)
    simp only [hmem, Bool.not_true]
    exact Bool.false_ne_true
  rw [hempty]

/-- Witness for C10 at a path listing the same Transceiver twice. -/
theorem c10_duplicate_path_ids_fail_with_empty_missing_list_witness :
    convertResolve [tx1, fiber80] ["T1", "T1"] = .error [] :=
  c10_duplicate_path_ids_fail_with_empty_missing_list [tx1, fiber80] ["T1", "T1"]
    (by decide) (by decide) (by decide)

end OptiNetSim
